import Mathlib

/-!
Shallow embedding of src/python3/store.py (an embedding vector store for
model.nvim): data model, load/save, diff engine, sync updater and query
engine, with theorems checking the specification's claims against the code.

Modelling conventions:
* Python floats are modelled as exact integers (`Int`); similarity
  comparisons and dot products are exact.
* The external collaborators (tiktoken's token counter, the openai
  embedding endpoint) are a parameter `Embedder` with one output vector per
  input, as required by the embedder contract in the spec.
* Exceptions are modelled with `Except StoreError`.
* numpy arrays stored in a `Store` are modelled by `Vectors`:
  `unset` is Python `None`, `arr1d` is the 1-D empty `np.array([])` that
  `initialize_empty_store` (and loading an empty raw vector list) produces,
  and `matrix d rows` is a 2-D float array with `d` columns.
-/

namespace LlmStore

/-- External collaborators of store.py: tiktoken's token counter
(`count_tokens`) and the embedding endpoint, which maps one input text to
one vector (`openai.Embedding.create` maps a batch by mapping each input). -/
structure Embedder where
  countTokens : String → Nat
  embedOne : String → List Int

/-- store.py: `INPUT_TOKEN_LIMIT = 8192`. -/
def INPUT_TOKEN_LIMIT : Nat := 8192

/-- Modulus used by adler32. -/
def MOD_ADLER : Nat := 65521

/-- One byte step of the adler32 checksum. -/
def adler32Step : Nat × Nat → Nat → Nat × Nat
  | (a, b), byte => ((a + byte) % MOD_ADLER, (b + (a + byte) % MOD_ADLER) % MOD_ADLER)

/-- zlib.adler32 over a byte sequence. -/
def adler32 (data : List Nat) : Nat :=
  let p := data.foldl adler32Step (1, 0)
  p.2 * 65536 + p.1

/-- UTF-8 encoding of a single character (codepoint to bytes). -/
def utf8Char (c : Char) : List Nat :=
  let n := c.toNat
  if n < 0x80 then [n]
  else if n < 0x800 then [0xC0 + n / 64, 0x80 + n % 64]
  else if n < 0x10000 then [0xE0 + n / 4096, 0x80 + (n / 64) % 64, 0x80 + n % 64]
  else [0xF0 + n / 262144, 0x80 + (n / 4096) % 64, 0x80 + (n / 64) % 64, 0x80 + n % 64]

/-- Python `text.encode('utf-8')`. -/
def utf8Encode (s : String) : List Nat :=
  (s.data.map utf8Char).flatten

/-- Lowercase hexadecimal digit. -/
def hexDigit (n : Nat) : Char :=
  if n < 10 then Char.ofNat (48 + n) else Char.ofNat (87 + n)

/-- Python format `f'{n:08x}'` for n < 2^32: exactly eight hex digits. -/
def toHex8 (n : Nat) : String :=
  String.mk ((List.range 8).map (fun i => hexDigit (n / 16 ^ (7 - i) % 16)))

/-- store.py `hash_content`: adler32 of the UTF-8 bytes, formatted 08x. -/
def hash_content (text : String) : String :=
  toHex8 (adler32 (utf8Encode text))

/-- store.py `Item` (TypedDict): id, content, optional meta map. -/
structure Item where
  id : String
  content : String
  meta : Option (List (String × String))
deriving Repr, DecidableEq, Inhabited

/-- store.py `StoreItem`: Item plus embedder tag and content hash. -/
structure StoreItem where
  id : String
  content : String
  meta : Option (List (String × String))
  embedder : String
  content_hash : String
deriving Repr, DecidableEq, Inhabited

/-- The `vectors` field of a Store: Python `None`, the empty 1-D
`np.array([])`, or a 2-D float matrix with `d` columns. -/
inductive Vectors where
  | unset
  | arr1d
  | matrix (d : Nat) (rows : List (List Int))
deriving Repr, DecidableEq, Inhabited

/-- store.py `Store` (TypedDict). -/
structure Store where
  abs_path : String
  items : List StoreItem
  vectors : Vectors
deriving Repr, DecidableEq, Inhabited

/-- Errors raised by store.py operations (Python exception classes). -/
inductive StoreError where
  /-- An uncaught read or parse exception while loading (anything other
  than FileNotFoundError). -/
  | corruptStore
  /-- the ValueError raised by get_embeddings, carrying the over-limit
  inputs truncated to 30 characters as printed by the code. -/
  | inputTooLarge (over_limits : List String)
  /-- Python IndexError (list del / numpy row indexing out of bounds). -/
  | indexError
  /-- numpy ValueError (shape mismatch in vstack / assignment / dot). -/
  | valueError
  /-- AssertionError of query_store's `assert vectors is not None`. -/
  | emptyStore
deriving Repr, DecidableEq

/-- The persisted JSON document: `{'items': ..., 'vectors': ...}`. -/
structure StoreRaw where
  items : List StoreItem
  vectors : List (List Int)
deriving Repr, DecidableEq, Inhabited

/-- Outcome of opening and parsing the store file: the file is absent
(FileNotFoundError), or present with either a well-formed document or a
failing read/parse (`found none`). -/
inductive ReadResult where
  | notFound
  | found (parsed : Option StoreRaw)

/-- Model of `os.path.abspath(os.path.join(store_dir, '.llm_store.json'))`. -/
def storePath (store_dir : String) : String :=
  store_dir ++ "/.llm_store.json"

/-- Python `np.array(raw)` for a list of float rows: the empty list gives
the 1-D empty array, a rectangular list gives a 2-D matrix, and a ragged
list raises (modelled as a corrupt store, since it aborts loading). -/
def npArray (raw : List (List Int)) : Except StoreError Vectors :=
  match raw with
  | [] => .ok .arr1d
  | r :: rs =>
      if rs.all (fun row => row.length = r.length) then .ok (.matrix r.length (r :: rs))
      else .error .corruptStore

/-- store.py `initialize_empty_store` (nested in load_or_initialize_store):
empty items and `np.array([])` — a present, zero-length array, not None. -/
def initialize_empty_store (abs_path : String) : Store :=
  { abs_path := abs_path, items := [], vectors := .arr1d }

/-- store.py `load_or_initialize_store`: FileNotFoundError yields a fresh
empty store; any other read/parse failure propagates. -/
def load_or_initialize_store (store_dir : String) (read : ReadResult) :
    Except StoreError Store :=
  let abs_path := storePath store_dir
  match read with
  | .notFound => .ok (initialize_empty_store abs_path)
  | .found none => .error .corruptStore
  | .found (some raw) =>
      (npArray raw.vectors).map
        (fun v => { abs_path := abs_path, items := raw.items, vectors := v })

/-- store.py `save_store`: returns the document written to disk, `none`
when nothing is written (early return on vectors None). -/
def save_store (store : Store) : Option StoreRaw :=
  match store.vectors with
  | .unset => none
  | .arr1d => some { items := store.items, vectors := [] }
  | .matrix _ rows => some { items := store.items, vectors := rows }

/-- store.py `get_embeddings`: empty input short-circuits with no API call;
otherwise all inputs must be under INPUT_TOKEN_LIMIT or a ValueError is
raised carrying the over-limit inputs truncated to 30 characters. The
second component counts embedding API calls made. -/
def get_embeddings (E : Embedder) (inputs : List String) :
    Except StoreError (List (List Int) × Nat) :=
  if inputs.isEmpty then .ok ([], 0)
  else
    let input_tokens := inputs.map (fun i => (E.countTokens i, i))
    if input_tokens.all (fun l => l.1 < INPUT_TOKEN_LIMIT) then
      .ok (inputs.map E.embedOne, 1)
    else
      .error (.inputTooLarge (input_tokens.filterMap
        (fun l => if l.1 < INPUT_TOKEN_LIMIT then none else some (l.2.take 30))))

/-- The dict comprehension `{x['id']: x['content_hash'] for x in store['items']}`
looked up at one id (later entries overwrite earlier ones). -/
def idToContentHash (sitems : List StoreItem) (i : String) : Option String :=
  sitems.foldl (fun acc x => if x.id = i then some x.content_hash else acc) none

/-- The filter condition of `get_stale_or_new_item_idxs`: the id is absent
from the store's id-to-hash dict, or the hash differs. -/
def needsUpdateCond (store_items : List StoreItem) (item : StoreItem) : Bool :=
  match idToContentHash store_items item.id with
  | none => true
  | some h => item.content_hash ≠ h

/-- store.py `get_stale_or_new_item_idxs`. -/
def get_stale_or_new_item_idxs (items : List StoreItem) (store : Store) : List Nat :=
  (items.enum.filter (fun p => needsUpdateCond store.items p.2)).map (·.1)

/-- store.py `get_removed_item_store_idx`: store positions whose id is not
in the set of incoming ids. -/
def get_removed_item_store_idx (items : List StoreItem) (store : Store) : List Nat :=
  (store.items.enum.filter (fun p => items.all (fun x => x.id ≠ p.2.id))).map (·.1)

/-- store.py `as_store_items`: stamp content_hash and embedder on each item. -/
def as_store_items (items : List Item) : List StoreItem :=
  items.map (fun it =>
    { id := it.id, content := it.content, meta := it.meta,
      content_hash := hash_content it.content, embedder := "openai_ada_002" })

/-- Number of rows of a stored vectors value (numpy shape along axis 0).
Only used where the code has established the value is not None. -/
def vecRowCount : Vectors → Nat
  | .unset => 0
  | .arr1d => 0
  | .matrix _ rows => rows.length

/-- Python `store['vectors'][idx] = np.array(embedding)`: row assignment.
Out-of-bounds index raises IndexError (the empty 1-D array has no rows);
a row of the wrong width fails to broadcast (ValueError). -/
def npSetRow (v : Vectors) (idx : Nat) (row : List Int) : Except StoreError Vectors :=
  match v with
  | .unset => .error .valueError
  | .arr1d => .error .indexError
  | .matrix d rows =>
      if idx < rows.length then
        if row.length = d then .ok (.matrix d (rows.set idx row))
        else .error .valueError
      else .error .indexError

/-- Python `np.vstack((vectors, embedding))`: appending one row. Stacking a
nonempty row onto the empty 1-D array is a shape mismatch (ValueError), as
is a row whose width differs from the matrix's column count. -/
def npVstack (v : Vectors) (row : List Int) : Except StoreError Vectors :=
  match v with
  | .unset => .error .valueError
  | .arr1d =>
      if row.length = 0 then .ok (.matrix 0 [[], []])
      else .error .valueError
  | .matrix d rows =>
      if row.length = d then .ok (.matrix d (rows ++ [row]))
      else .error .valueError

/-- The full-sync removal loop of update_store:
`for idx in idxs: del store['items'][idx]; np.delete(store['vectors'], idx, axis=0)`.
The del mutates the items list in place (shifting later positions), while
the np.delete result is discarded, so the vector row count never changes;
both raise IndexError when the index is out of bounds. -/
def syncRemoveLoop (sitems : List StoreItem) (vectorRows : Nat) :
    List Nat → Except StoreError (List StoreItem)
  | [] => .ok sitems
  | idx :: rest =>
      if idx < sitems.length then
        if idx < vectorRows then syncRemoveLoop (sitems.eraseIdx idx) vectorRows rest
        else .error .indexError
      else .error .indexError

/-- The dict comprehension `{item['id']: idx for idx, item in enumerate(store['items'])}`
looked up at one id (later entries overwrite earlier ones). -/
def idToIdx (sitems : List StoreItem) (i : String) : Option Nat :=
  sitems.enum.foldl (fun acc p => if p.2.id = i then some p.1 else acc) none

/-- One iteration of the embedding loop of update_store: replace the item
entry and overwrite its vector row when the id was present in the
pre-loop id-to-index dict, otherwise append both. -/
def applyEmbedding (id_to_idx : String → Option Nat) (st : List StoreItem × Vectors)
    (item : StoreItem) (embedding : List Int) :
    Except StoreError (List StoreItem × Vectors) :=
  match id_to_idx item.id with
  | some idx =>
      if idx < st.1.length then
        (npSetRow st.2 idx embedding).map (fun v => (st.1.set idx item, v))
      else .error .indexError
  | none =>
      (npVstack st.2 embedding).map (fun v => (st.1 ++ [item], v))

/-- The embedding loop of update_store over the needing-update items paired
with their returned embeddings. -/
def embedLoop (id_to_idx : String → Option Nat) :
    List (StoreItem × List Int) → List StoreItem × Vectors →
    Except StoreError (List StoreItem × Vectors)
  | [], st => .ok st
  | (item, e) :: rest, st =>
      (applyEmbedding id_to_idx st item e).bind (embedLoop id_to_idx rest)

/-- The contents collected for embedding:
`[items[idx]['content'] for idx in needs_update_idx]`. -/
def needs_update_content (items0 : List Item) (store : Store) : List String :=
  (get_stale_or_new_item_idxs (as_store_items items0) store).map
    (fun idx => ((as_store_items items0).getD idx default).content)

/-- Result of update_store: the returned updated-id list, the mutated
store, and the number of embedding API calls that were made. -/
structure UpdateResult where
  updated : List String
  store : Store
  embedCalls : Nat
deriving Repr, DecidableEq

/-- The vectors value after update_store's None-initialization branch:
`np.empty([0, len(embeddings[0])])` when the stored value is Python None,
otherwise the stored value unchanged. -/
def update_vectors0 (store : Store) (embeddings : List (List Int)) : Vectors :=
  match store.vectors with
  | .unset => .matrix (embeddings.getD 0 []).length []
  | v => v

/-- The store's item list after the optional full-sync removal step
(`if sync:` loop of update_store). -/
def update_afterSync (items : List StoreItem) (store : Store) (vectors0 : Vectors)
    (sync : Bool) : Except StoreError (List StoreItem) :=
  if sync then
    syncRemoveLoop store.items (vecRowCount vectors0)
      (get_removed_item_store_idx items store)
  else .ok store.items

/-- The non-early-return path of update_store: embed the needing-update
contents, initialize the vectors when None, run the full-sync removal
loop, compute the id-to-index dict once, run the embedding loop, and
return the ids of the items that were (re)embedded. -/
def update_store_main (E : Embedder) (items0 : List Item) (store : Store) (sync : Bool) :
    Except StoreError UpdateResult :=
  let items := as_store_items items0
  let needs_update_idx := get_stale_or_new_item_idxs items store
  (get_embeddings E (needs_update_content items0 store)).bind (fun er =>
    let vectors0 := update_vectors0 store er.1
    (update_afterSync items store vectors0 sync).bind (fun sitems1 =>
      let id_to_idx := idToIdx sitems1
      let pairs := (needs_update_idx.map (fun idx => items.getD idx default)).zip er.1
      (embedLoop id_to_idx pairs (sitems1, vectors0)).map (fun st =>
        ⟨needs_update_idx.map (fun idx => (items.getD idx default).id),
         { store with items := st.1, vectors := st.2 }, er.2⟩)))

/-- store.py `update_store`. Faithful points: the early return on an empty
needs-update index list happens before any embedding call or mutation; the
vectors matrix is initialized from the embedding dimensionality only when
it is Python None; the full-sync removal loop deletes item entries at the
precomputed indices in ascending order while the np.delete result is
discarded; the id-to-index dict is computed once before the embedding
loop. -/
def update_store (E : Embedder) (items0 : List Item) (store : Store) (sync : Bool) :
    Except StoreError UpdateResult :=
  if (get_stale_or_new_item_idxs (as_store_items items0) store).isEmpty then
    .ok ⟨[], store, 0⟩
  else update_store_main E items0 store sync

/-- Result of update_store_and_save: the update result plus the document
written by save_store (`none` when nothing was written). -/
structure UpdateSaveResult where
  updated : List String
  store : Store
  embedCalls : Nat
  saved : Option StoreRaw
deriving Repr, DecidableEq

/-- store.py `update_store_and_save`: save only when the updated-id list is
nonempty; the update result is returned unchanged. -/
def update_store_and_save (E : Embedder) (items0 : List Item) (store : Store)
    (sync : Bool) : Except StoreError UpdateSaveResult :=
  (update_store E items0 store sync).map (fun r =>
    ⟨r.updated, r.store, r.embedCalls,
     if r.updated.length > 0 then save_store r.store else none⟩)

/-- Dot product of two integer vectors of equal length. -/
def dotVec (r qv : List Int) : Int :=
  (r.zipWith (· * ·) qv).sum

/-- Python `np.dot(matrix_rows, query_vector)` row-wise. -/
def npDotRows (rows : List (List Int)) (qv : List Int) : List Int :=
  rows.map (fun r => dotVec r qv)

/-- numpy dot of a 2-D matrix with a 1-D vector: the vector length must
equal the column count, otherwise ValueError. -/
def npDotMatVec (d : Nat) (rows : List (List Int)) (qv : List Int) :
    Except StoreError (List Int) :=
  if qv.length = d then .ok (npDotRows rows qv) else .error .valueError

/-- Ascending comparison used to model np.argsort: smaller similarity
first, equal similarities ordered by index (np.argsort on ties of small
arrays keeps index order; the model fixes the deterministic stable order). -/
def argsortRel (l : List Int) (i j : Nat) : Prop :=
  l.getD i 0 < l.getD j 0 ∨ (l.getD i 0 = l.getD j 0 ∧ i ≤ j)

instance argsortRelDecidable (l : List Int) : DecidableRel (argsortRel l) :=
  fun i j => by unfold argsortRel; infer_instance

/-- Model of `np.argsort(similarities)`: the indices of the similarity list
sorted ascending by value, ties in index order. -/
def argsort (l : List Int) : List Nat :=
  List.insertionSort (argsortRel l) (List.range l.length)

/-- The filtered branch of query_store: scan the ranking in order, append
items passing the filter, and break as soon as the result list has reached
`count` entries (checked after each iteration, appended or not). -/
def queryFilterLoop (sitems : List StoreItem) (f : StoreItem → Bool) (count : Nat) :
    List Nat → List StoreItem → Except StoreError (List StoreItem)
  | [], results => .ok results
  | idx :: rest, results =>
      if h : idx < sitems.length then
        let results' := if f sitems[idx] then results ++ [sitems[idx]] else results
        if count ≤ results'.length then .ok results'
        else queryFilterLoop sitems f count rest results'
      else .error .indexError

/-- The unfiltered branch of query_store:
`[store['items'][idx] for idx in ranks[:count]]` with Python list indexing
(IndexError on an out-of-range rank). -/
def takeItems (sitems : List StoreItem) : List Nat → Except StoreError (List StoreItem)
  | [] => .ok []
  | idx :: rest =>
      if h : idx < sitems.length then
        (takeItems sitems rest).map (fun l => sitems[idx] :: l)
      else .error .indexError

/-- store.py `query_store`. The assert on vectors being None raises
(modelled as the EmptyStoreError of the spec); on the empty 1-D array the
embedding call still happens and then np.dot / np.argsort fails on shapes;
on a matrix the prompt is embedded, similarities are row dot products, and
the ranking is the reversed argsort. -/
def query_store (E : Embedder) (prompt : String) (count : Nat) (store : Store)
    (filter : Option (StoreItem → Bool)) : Except StoreError (List StoreItem) :=
  match store.vectors with
  | .unset => .error .emptyStore
  | .arr1d => (get_embeddings E [prompt]).bind (fun _ => .error .valueError)
  | .matrix d rows =>
      (get_embeddings E [prompt]).bind (fun er =>
        let query_vector := er.1.getD 0 []
        (npDotMatVec d rows query_vector).bind (fun similarities =>
          let ranks := (argsort similarities).reverse
          match filter with
          | none => takeItems store.items (ranks.take count)
          | some f => queryFilterLoop store.items f count ranks []))

/-- Decidable equality on Except results, used to evaluate the operations
on concrete inputs. -/
instance exceptDecEq {ε α : Type} [DecidableEq ε] [DecidableEq α] :
    DecidableEq (Except ε α) := fun x y =>
  match x, y with
  | .ok a, .ok b =>
      if h : a = b then .isTrue (by rw [h]) else .isFalse (by intro hc; cases hc; exact h rfl)
  | .error a, .error b =>
      if h : a = b then .isTrue (by rw [h]) else .isFalse (by intro hc; cases hc; exact h rfl)
  | .ok _, .error _ => .isFalse (by intro hc; cases hc)
  | .error _, .ok _ => .isFalse (by intro hc; cases hc)

/-! Concrete fixtures used to evaluate the code on explicit inputs. -/

/-- A concrete embedder: token count is the character count, every
embedding is the one-dimensional vector [1]. -/
def E0 : Embedder := { countTokens := String.length, embedOne := fun _ => [1] }

/-- Stored item with id a whose stored hash is stale. -/
def sA1 : StoreItem :=
  { id := "a", content := "aold", meta := none, embedder := "openai_ada_002",
    content_hash := "00000000" }

/-- Stored item with id b, hash current for its content. -/
def sB1 : StoreItem :=
  { id := "b", content := "b", meta := none, embedder := "openai_ada_002",
    content_hash := hash_content "b" }

/-- Stored item with id c, hash current for its content. -/
def sC1 : StoreItem :=
  { id := "c", content := "c", meta := none, embedder := "openai_ada_002",
    content_hash := hash_content "c" }

/-- Incoming item with id a and changed content. -/
def iA1 : Item := { id := "a", content := "anew", meta := none }

/-- Persisted document with two items and two aligned vector rows. -/
def c1raw : StoreRaw := { items := [sA1, sB1], vectors := [[5], [6]] }

/-- The store obtained by loading c1raw. -/
def c1LoadedStore : Store :=
  { abs_path := storePath "d", items := [sA1, sB1], vectors := .matrix 1 [[5], [6]] }

/-- Store with three items and three aligned vector rows. -/
def c2Store : Store :=
  { abs_path := "p", items := [sA1, sB1, sC1], vectors := .matrix 1 [[5], [6], [7]] }

/-- Stored item with id a whose hash matches content a. -/
def sA5 : StoreItem :=
  { id := "a", content := "a", meta := none, embedder := "openai_ada_002",
    content_hash := hash_content "a" }

/-- Incoming item with id a, unchanged relative to sA5. -/
def iA5 : Item := { id := "a", content := "a", meta := none }

/-- Incoming new item with id d. -/
def iD5 : Item := { id := "d", content := "d", meta := none }

/-- Store with items b, c, a (in that order) and three aligned rows. -/
def c5Store : Store :=
  { abs_path := "p", items := [sB1, sC1, sA5], vectors := .matrix 1 [[1], [2], [3]] }

/-- A store whose vectors field is Python None. -/
def unsetStore : Store := { abs_path := "p", items := [], vectors := .unset }

/-! Claim C1: alignment invariant. -/

/-- C1: the alignment invariant fails on the code. Loading a store with two
items and two vector rows and then running a full-sync update with a single
changed item succeeds, but leaves one item against two vector rows: the
full-sync removal deletes the item entry while the np.delete result for the
vector row is discarded. -/
theorem C1_alignment_code_bug :
    load_or_initialize_store "d" (.found (some c1raw)) = .ok c1LoadedStore ∧
    (update_store E0 [iA1] c1LoadedStore true).map
      (fun r => (r.store.items.length, vecRowCount r.store.vectors)) = .ok (1, 2) ∧
    (1 : Nat) ≠ 2 :=
  ⟨by decide, by decide, by decide⟩

/-! Claim C2: full-sync removal keeps items and vectors aligned. -/

/-- C2: full-sync removal is wrong on the code. With stored items a, b, c
(three aligned rows) and incoming items {a}, the removal indices are [1, 2];
deleting item entry 1 shifts entry 2, so the second delete raises
IndexError — and no vector row is ever removed since the np.delete result
is discarded. -/
theorem C2_removal_code_bug :
    update_store E0 [iA1] c2Store true = .error .indexError := by
  decide

/-! Claim C3: querying a store with an unset vector matrix. -/

/-- C3: querying a store whose vectors field is Python None fails with the
assert on vectors (the EmptyStoreError of the spec) and never returns a
result list, for every prompt, count and optional filter. -/
theorem C3_empty_store_query (E : Embedder) (prompt : String) (count : Nat)
    (store : Store) (filter : Option (StoreItem → Bool))
    (h : store.vectors = .unset) :
    query_store E prompt count store filter = .error .emptyStore ∧
    ∀ res : List StoreItem, query_store E prompt count store filter ≠ .ok res := by
  have hq : query_store E prompt count store filter = .error .emptyStore := by
    unfold query_store
    rw [h]
  exact ⟨hq, fun res hres => by rw [hq] at hres; exact Except.noConfusion hres⟩

/-- Witness for C3 at a concrete unset-vectors store. -/
theorem C3_empty_store_query_witness :
    query_store E0 "q" 3 unsetStore none = .error .emptyStore ∧
    query_store E0 "q" 3 unsetStore none ≠ .ok [] :=
  ⟨(C3_empty_store_query E0 "q" 3 unsetStore none rfl).1,
   (C3_empty_store_query E0 "q" 3 unsetStore none rfl).2 []⟩

/-! Claim C5: idempotence of update. -/

/-- C5: idempotence fails on the code. Starting from stored items b, c, a
(aligned, hashes current for b, c, a) and incoming items {a, d} with a
unchanged and d new, the first full-sync update succeeds — but its removal
loop deletes store entries at ascending indices [0, 1], so after removing b
the shifted list loses a instead of c. The second identical update then
reports a as needing update and makes one further embedding call instead
of returning an empty list with zero calls. -/
theorem C5_idempotence_code_bug :
    ((update_store E0 [iA5, iD5] c5Store true).bind
        (fun r => update_store E0 [iA5, iD5] r.store true)).map
      (fun r => (r.updated, r.embedCalls)) = .ok (["a"], 1) ∧
    (["a"] : List String) ≠ [] :=
  ⟨by decide, by decide⟩

/-! Claim C9: loading a missing or corrupt store. -/

/-- C9 counterexample: the fresh store returned on FileNotFoundError does
not have an unset (None) vector matrix as the claim states: its vectors
field is the present zero-length array np.array([]). -/
theorem C9_counterexample :
    load_or_initialize_store "dir" .notFound =
      .ok { abs_path := storePath "dir", items := [], vectors := .arr1d } ∧
    Vectors.arr1d ≠ Vectors.unset :=
  ⟨rfl, by decide⟩

/-- C9 amended: on a location whose persisted file is not found, load
returns a freshly initialized empty store bound to that location — empty
item sequence and a zero-length (non-None) vector array, not the unset
sentinel — and never fails; on any other read or parse failure it fails
with the propagated exception (the CorruptStoreError of the spec) rather
than producing an empty store. -/
theorem C9_corrected_load (dir : String) :
    load_or_initialize_store dir .notFound =
      .ok { abs_path := storePath dir, items := [], vectors := .arr1d } ∧
    (initialize_empty_store (storePath dir)).vectors ≠ .unset ∧
    load_or_initialize_store dir (.found none) = .error .corruptStore :=
  ⟨rfl, fun h => Vectors.noConfusion h, rfl⟩

/-! Claim C6: the diff engine. -/

/-- Membership characterization of the diff engine's result. -/
lemma mem_get_stale_iff (items : List StoreItem) (store : Store) (idx : Nat) :
    idx ∈ get_stale_or_new_item_idxs items store ↔
      ∃ h : idx < items.length, needsUpdateCond store.items items[idx] = true := by
  unfold get_stale_or_new_item_idxs
  constructor
  · intro hmem
    obtain ⟨p, hp, hfst⟩ := List.mem_map.mp hmem
    obtain ⟨henum, hcond⟩ := List.mem_filter.mp hp
    rw [List.mem_enum_iff_getElem?] at henum
    have hlt : p.1 < items.length := by
      by_contra hge
      rw [List.getElem?_eq_none (Nat.le_of_not_lt hge)] at henum
      exact Option.noConfusion henum
    rw [List.getElem?_eq_getElem hlt] at henum
    subst hfst
    exact ⟨hlt, by rw [Option.some.inj henum]; exact hcond⟩
  · rintro ⟨h, hcond⟩
    refine List.mem_map.mpr ⟨(idx, items[idx]), List.mem_filter.mpr ⟨?_, hcond⟩, rfl⟩
    rw [List.mem_enum_iff_getElem?]
    exact List.getElem?_eq_getElem h

/-- The diff engine's indices are strictly increasing (input order). -/
lemma get_stale_sorted (items : List StoreItem) (store : Store) :
    List.Sorted (· < ·) (get_stale_or_new_item_idxs items store) := by
  unfold get_stale_or_new_item_idxs
  rw [List.Sorted, List.pairwise_map]
  apply List.Pairwise.filter
  rw [List.pairwise_iff_getElem]
  intro i j hi hj hij
  rw [List.getElem_enum, List.getElem_enum]
  exact hij

/-- C6: the diff engine reports exactly the input positions whose id is
absent from the store's id-to-hash mapping or whose content hash differs
from the stored hash for that id; the reported indices are in input order,
and items with an unchanged hash are not reported. Stated with getD so the
item access carries no proof obligation. -/
theorem C6_diff_engine (items : List StoreItem) (store : Store) :
    (∀ idx, idx < items.length →
      (idx ∈ get_stale_or_new_item_idxs items store ↔
        idToContentHash store.items (items.getD idx default).id = none ∨
        ∃ h0, idToContentHash store.items (items.getD idx default).id = some h0 ∧
          (items.getD idx default).content_hash ≠ h0)) ∧
    List.Sorted (· < ·) (get_stale_or_new_item_idxs items store) ∧
    (∀ idx ∈ get_stale_or_new_item_idxs items store, idx < items.length) := by
  refine ⟨?_, get_stale_sorted items store, ?_⟩
  · intro idx hlt
    have hgetD : items.getD idx default = items[idx] := by
      rw [List.getD_eq_getElem?_getD, List.getElem?_eq_getElem hlt]
      rfl
    rw [hgetD, mem_get_stale_iff]
    constructor
    · rintro ⟨_, hcond⟩
      unfold needsUpdateCond at hcond
      cases hm : idToContentHash store.items items[idx].id with
      | none => exact Or.inl rfl
      | some h0 =>
          rw [hm] at hcond
          exact Or.inr ⟨h0, rfl, of_decide_eq_true hcond⟩
    · intro hdisj
      refine ⟨hlt, ?_⟩
      unfold needsUpdateCond
      cases hm : idToContentHash store.items items[idx].id with
      | none => rfl
      | some h0 =>
          rcases hdisj with hnone | ⟨h1, hsome, hne⟩
          · rw [hm] at hnone; exact Option.noConfusion hnone
          · rw [hm] at hsome
            cases Option.some.inj hsome
            exact decide_eq_true hne
  · intro idx hmem
    obtain ⟨h, _⟩ := (mem_get_stale_iff items store idx).mp hmem
    exact h

/-- Witness for C6 at a concrete input: for the store loaded from c1raw and
the hashed incoming item list [a-changed, d-new], index 0 (changed hash) is
reported. -/
theorem C6_diff_engine_witness :
    (0 < (as_store_items [iA1, iD5]).length) ∧
    (0 ∈ get_stale_or_new_item_idxs (as_store_items [iA1, iD5]) c1LoadedStore ↔
      idToContentHash c1LoadedStore.items
        ((as_store_items [iA1, iD5]).getD 0 default).id = none ∨
      ∃ h0, idToContentHash c1LoadedStore.items
          ((as_store_items [iA1, iD5]).getD 0 default).id = some h0 ∧
        ((as_store_items [iA1, iD5]).getD 0 default).content_hash ≠ h0) ∧
    List.Sorted (· < ·)
      (get_stale_or_new_item_idxs (as_store_items [iA1, iD5]) c1LoadedStore) :=
  ⟨by decide,
   (C6_diff_engine (as_store_items [iA1, iD5]) c1LoadedStore).1 0 (by decide),
   (C6_diff_engine (as_store_items [iA1, iD5]) c1LoadedStore).2.1⟩

/-! Claims C7 and C8: failure and frame behaviour of the sync updater. -/

/-- If the diff engine reports nothing, update_store returns the empty
result immediately: the input store, no updated ids, no embedding calls. -/
lemma update_store_empty_needs (E : Embedder) (items0 : List Item) (store : Store)
    (sync : Bool) (h : get_stale_or_new_item_idxs (as_store_items items0) store = []) :
    update_store E items0 store sync = .ok ⟨[], store, 0⟩ := by
  have hb : (get_stale_or_new_item_idxs (as_store_items items0) store).isEmpty = true := by
    rw [h]; rfl
  simp [update_store, hb]

/-- If the diff engine reports something and the embedding call fails, the
whole update fails with that error. -/
lemma update_store_embed_error (E : Embedder) (items0 : List Item) (store : Store)
    (sync : Bool) (e : StoreError)
    (h : get_stale_or_new_item_idxs (as_store_items items0) store ≠ [])
    (he : get_embeddings E (needs_update_content items0 store) = .error e) :
    update_store E items0 store sync = .error e := by
  have hb : (get_stale_or_new_item_idxs (as_store_items items0) store).isEmpty = false := by
    cases hb : (get_stale_or_new_item_idxs (as_store_items items0) store).isEmpty
    · rfl
    · exact absurd (List.isEmpty_iff.mp hb) h
  simp only [update_store, hb, Bool.false_eq_true, if_false]
  simp [update_store_main, he, Except.bind]

/-- C7: whenever some content in the batch collected for embedding is over
the token limit, the whole update fails with the over-limit ValueError
whose payload identifies the offending content (truncated to 30 characters
as the code prints it), and no result store is produced. -/
theorem C7_size_limit (E : Embedder) (items0 : List Item) (store : Store) (sync : Bool)
    (c : String) (h1 : c ∈ needs_update_content items0 store)
    (h2 : INPUT_TOKEN_LIMIT < E.countTokens c) :
    ∃ over, update_store E items0 store sync = .error (.inputTooLarge over) ∧
      c.take 30 ∈ over ∧
      ∀ r, update_store E items0 store sync ≠ .ok r := by
  have hnc : needs_update_content items0 store ≠ [] := by
    intro h; rw [h] at h1; exact List.not_mem_nil c h1
  have hidx : get_stale_or_new_item_idxs (as_store_items items0) store ≠ [] := by
    intro h
    exact hnc (by unfold needs_update_content; rw [h]; rfl)
  have hovermem : (E.countTokens c, c) ∈
      (needs_update_content items0 store).map (fun i => (E.countTokens i, i)) :=
    List.mem_map.mpr ⟨c, h1, rfl⟩
  have hnotlt : ¬ E.countTokens c < INPUT_TOKEN_LIMIT := Nat.lt_asymm h2
  have he : get_embeddings E (needs_update_content items0 store) =
      .error (.inputTooLarge
        (((needs_update_content items0 store).map (fun i => (E.countTokens i, i))).filterMap
          (fun l => if l.1 < INPUT_TOKEN_LIMIT then none else some (l.2.take 30)))) := by
    have hbne : (needs_update_content items0 store).isEmpty = false := by
      cases hb : (needs_update_content items0 store).isEmpty
      · rfl
      · exact absurd (List.isEmpty_iff.mp hb) hnc
    have hall : (((needs_update_content items0 store).map
        (fun i => (E.countTokens i, i))).all (fun l => l.1 < INPUT_TOKEN_LIMIT)) = false := by
      rw [List.all_eq_false]
      exact ⟨(E.countTokens c, c), hovermem, by simpa using hnotlt⟩
    simp [get_embeddings, hbne, hall]
  refine ⟨_, update_store_embed_error E items0 store sync _ hidx he, ?_, ?_⟩
  · exact List.mem_filterMap.mpr ⟨(E.countTokens c, c), hovermem, by simp [hnotlt]⟩
  · intro r hr
    rw [update_store_embed_error E items0 store sync _ hidx he] at hr
    exact Except.noConfusion hr

/-- A successful row overwrite always produces a 2-D matrix. -/
lemma npSetRow_ok_matrix {v : Vectors} {idx : Nat} {row : List Int} {v2 : Vectors}
    (h : npSetRow v idx row = .ok v2) : ∃ d rows, v2 = .matrix d rows := by
  cases v with
  | unset => exact Except.noConfusion h
  | arr1d => exact Except.noConfusion h
  | matrix d rows =>
      simp only [npSetRow] at h
      split at h
      · split at h
        · exact ⟨_, _, (Except.ok.inj h).symm⟩
        · exact Except.noConfusion h
      · exact Except.noConfusion h

/-- A successful vstack always produces a 2-D matrix. -/
lemma npVstack_ok_matrix {v : Vectors} {row : List Int} {v2 : Vectors}
    (h : npVstack v row = .ok v2) : ∃ d rows, v2 = .matrix d rows := by
  cases v with
  | unset => exact Except.noConfusion h
  | arr1d =>
      simp only [npVstack] at h
      split at h
      · exact ⟨_, _, (Except.ok.inj h).symm⟩
      · exact Except.noConfusion h
  | matrix d rows =>
      simp only [npVstack] at h
      split at h
      · exact ⟨_, _, (Except.ok.inj h).symm⟩
      · exact Except.noConfusion h

/-- A successful embedding-loop iteration never leaves the vectors unset. -/
lemma applyEmbedding_ok_ne_unset {m : String → Option Nat} {st : List StoreItem × Vectors}
    {item : StoreItem} {e : List Int} {st1 : List StoreItem × Vectors}
    (h : applyEmbedding m st item e = .ok st1) : st1.2 ≠ .unset := by
  cases hm : m item.id with
  | some idx =>
      simp only [applyEmbedding, hm] at h
      split at h
      · cases hs : npSetRow st.2 idx e with
        | error err => rw [hs] at h; exact Except.noConfusion h
        | ok v =>
            rw [hs] at h
            simp only [Except.map] at h
            obtain ⟨d, rows, hv⟩ := npSetRow_ok_matrix hs
            rw [← Except.ok.inj h, hv]
            exact fun hc => Vectors.noConfusion hc
      · exact Except.noConfusion h
  | none =>
      simp only [applyEmbedding, hm] at h
      cases hs : npVstack st.2 e with
      | error err => rw [hs] at h; exact Except.noConfusion h
      | ok v =>
          rw [hs] at h
          simp only [Except.map] at h
          obtain ⟨d, rows, hv⟩ := npVstack_ok_matrix hs
          rw [← Except.ok.inj h, hv]
          exact fun hc => Vectors.noConfusion hc

/-- A successful embedding loop never leaves the vectors unset. -/
lemma embedLoop_ok_ne_unset {m : String → Option Nat} :
    ∀ (pairs : List (StoreItem × List Int)) (st st2 : List StoreItem × Vectors),
      st.2 ≠ .unset → embedLoop m pairs st = .ok st2 → st2.2 ≠ .unset := by
  intro pairs
  induction pairs with
  | nil =>
      intro st st2 hne h
      unfold embedLoop at h
      rw [← Except.ok.inj h]
      exact hne
  | cons p rest ih =>
      intro st st2 hne h
      obtain ⟨item, e⟩ := p
      unfold embedLoop at h
      cases hae : applyEmbedding m st item e with
      | error err => rw [hae] at h; exact Except.noConfusion h
      | ok st1 =>
          rw [hae] at h
          simp only [Except.bind] at h
          exact ih st1 st2 (applyEmbedding_ok_ne_unset hae) h

/-- The vectors value after the None-initialization branch is never the
unset sentinel. -/
lemma update_vectors0_ne_unset (store : Store) (embeddings : List (List Int)) :
    update_vectors0 store embeddings ≠ .unset := by
  unfold update_vectors0
  cases store.vectors <;> exact fun hc => Vectors.noConfusion hc

/-- A successful run of the main update path leaves the result store's
vectors as an actual value, never the unset sentinel. -/
lemma update_store_main_ok_ne_unset (E : Embedder) (items0 : List Item) (store : Store)
    (sync : Bool) (r : UpdateResult)
    (hok : update_store_main E items0 store sync = .ok r) :
    r.store.vectors ≠ .unset := by
  unfold update_store_main at hok
  cases hge : get_embeddings E (needs_update_content items0 store) with
  | error err => rw [hge] at hok; exact Except.noConfusion hok
  | ok er =>
      rw [hge] at hok
      simp only [Except.bind] at hok
      cases has : update_afterSync (as_store_items items0) store
          (update_vectors0 store er.1) sync with
      | error err => rw [has] at hok; exact Except.noConfusion hok
      | ok sitems1 =>
          rw [has] at hok
          simp only [Except.bind] at hok
          cases hel : embedLoop (idToIdx sitems1)
              (((get_stale_or_new_item_idxs (as_store_items items0) store).map
                 (fun idx => (as_store_items items0).getD idx default)).zip er.1)
              (sitems1, update_vectors0 store er.1) with
          | error err => rw [hel] at hok; exact Except.noConfusion hok
          | ok st2 =>
              rw [hel] at hok
              simp only [Except.map] at hok
              rw [← Except.ok.inj hok]
              exact embedLoop_ok_ne_unset _ _ st2
                (update_vectors0_ne_unset store er.1) hel

/-- A successful update that reported any updated id leaves the result
store's vectors as an actual matrix (never the unset sentinel). -/
lemma update_store_ok_ne_unset (E : Embedder) (items0 : List Item) (store : Store)
    (sync : Bool) (r : UpdateResult)
    (hok : update_store E items0 store sync = .ok r) (hne : r.updated ≠ []) :
    r.store.vectors ≠ .unset := by
  by_cases hempty : get_stale_or_new_item_idxs (as_store_items items0) store = []
  · rw [update_store_empty_needs E items0 store sync hempty] at hok
    rw [← Except.ok.inj hok] at hne
    exact absurd rfl hne
  · have hb : (get_stale_or_new_item_idxs (as_store_items items0) store).isEmpty = false := by
      cases hb : (get_stale_or_new_item_idxs (as_store_items items0) store).isEmpty
      · rfl
      · exact absurd (List.isEmpty_iff.mp hb) hempty
    unfold update_store at hok
    rw [hb] at hok
    simp only [Bool.false_eq_true, if_false] at hok
    exact update_store_main_ok_ne_unset E items0 store sync r hok

/-- C8: when the diff engine reports no indices, update returns the empty
result with zero embedding calls and the store unchanged, and
update_store_and_save additionally writes nothing; whenever update
succeeds, update_store_and_save returns the update result unchanged and
writes the serialized store exactly when the updated-id list is nonempty
(the write is a real document, since a successful nonempty update never
leaves the vectors unset). -/
theorem C8_frame (E : Embedder) (items0 : List Item) (store : Store) (sync : Bool) :
    (get_stale_or_new_item_idxs (as_store_items items0) store = [] →
      update_store E items0 store sync = .ok ⟨[], store, 0⟩ ∧
      update_store_and_save E items0 store sync = .ok ⟨[], store, 0, none⟩) ∧
    (∀ r : UpdateResult, update_store E items0 store sync = .ok r →
      update_store_and_save E items0 store sync =
        .ok ⟨r.updated, r.store, r.embedCalls,
             if r.updated.length > 0 then save_store r.store else none⟩ ∧
      (r.updated ≠ [] → ∃ raw, save_store r.store = some raw)) := by
  constructor
  · intro hempty
    have h1 := update_store_empty_needs E items0 store sync hempty
    refine ⟨h1, ?_⟩
    unfold update_store_and_save
    rw [h1]
    rfl
  · intro r hok
    constructor
    · unfold update_store_and_save
      rw [hok]
      rfl
    · intro hne
      have hvec := update_store_ok_ne_unset E items0 store sync r hok hne
      unfold save_store
      cases hv : r.store.vectors with
      | unset => exact absurd hv hvec
      | arr1d => exact ⟨_, rfl⟩
      | matrix d rows => exact ⟨_, rfl⟩

/-- An embedder whose token counts are huge (ten thousand per character). -/
def bigE : Embedder := { countTokens := fun s => s.length * 10000, embedOne := fun _ => [1] }

/-- A new incoming item whose content bigE counts as over the limit. -/
def iBig : Item := { id := "x", content := "abc", meta := none }

/-- Witness for C7: a new three-character item against a fresh store, with
an embedder counting 30000 tokens for it, aborts the whole update with the
over-limit error naming the content. -/
theorem C7_size_limit_witness :
    ("abc" ∈ needs_update_content [iBig] (initialize_empty_store "p")) ∧
    INPUT_TOKEN_LIMIT < bigE.countTokens "abc" ∧
    ∃ over, update_store bigE [iBig] (initialize_empty_store "p") false =
        .error (.inputTooLarge over) ∧
      "abc".take 30 ∈ over ∧
      ∀ r, update_store bigE [iBig] (initialize_empty_store "p") false ≠ .ok r :=
  ⟨by decide, by decide,
   C7_size_limit bigE [iBig] (initialize_empty_store "p") false "abc"
     (by decide) (by decide)⟩

/-- Store with one current item a, used for the C8 witness. -/
def c8Store : Store := { abs_path := "p", items := [sA5], vectors := .matrix 1 [[1]] }

/-- The result of updating c8Store with the new item d. -/
def r8 : UpdateResult :=
  { updated := ["d"],
    store := { abs_path := "p",
               items := [sA5,
                 { id := "d", content := "d", meta := none,
                   embedder := "openai_ada_002", content_hash := hash_content "d" }],
               vectors := .matrix 1 [[1], [1]] },
    embedCalls := 1 }

/-- Witness for C8: with an unchanged item the diff is empty, so update
returns the empty result and nothing is persisted; with a new item the
update result is returned unchanged and the store document is written. -/
theorem C8_frame_witness :
    (update_store E0 [iA5] c8Store false = .ok ⟨[], c8Store, 0⟩ ∧
     update_store_and_save E0 [iA5] c8Store false = .ok ⟨[], c8Store, 0, none⟩) ∧
    (update_store_and_save E0 [iD5] c8Store false =
       .ok ⟨r8.updated, r8.store, r8.embedCalls,
            if r8.updated.length > 0 then save_store r8.store else none⟩ ∧
     (r8.updated ≠ [] → ∃ raw, save_store r8.store = some raw)) :=
  ⟨(C8_frame E0 [iA5] c8Store false).1 (by decide),
   (C8_frame E0 [iD5] c8Store false).2 r8 (by decide)⟩

/-! Claim C10: the first append on a freshly initialized store. -/

/-- Against an empty store, every incoming item is new, so the diff engine
reports every input position. -/
lemma get_stale_empty (items : List StoreItem) (store : Store) (h : store.items = []) :
    get_stale_or_new_item_idxs items store = List.range items.length := by
  unfold get_stale_or_new_item_idxs
  rw [h]
  rw [show List.filter (fun p => needsUpdateCond [] p.2) items.enum = items.enum from
    List.filter_eq_self.mpr (fun a _ => rfl)]
  exact List.enum_map_fst items

/-- Reading a list back through getD over its index range is the list. -/
lemma range_map_getD_map {α β : Type} (f : α → β) :
    ∀ (l : List α) (d : α),
      (List.range l.length).map (fun i => f (l.getD i d)) = l.map f := by
  intro l
  induction l with
  | nil => intro d; rfl
  | cons a l ih =>
      intro d
      rw [List.length_cons, List.range_succ_eq_map, List.map_cons, List.map_map]
      congr 1
      exact ih d

/-- Hashing items does not change their contents. -/
lemma as_store_items_contents (items0 : List Item) :
    (as_store_items items0).map (fun it => it.content) =
      items0.map (fun it => it.content) := by
  unfold as_store_items
  rw [List.map_map]
  rfl

/-- When every input is under the token limit, get_embeddings makes one
batch call returning one vector per input. -/
lemma get_embeddings_ok (E : Embedder) (inputs : List String) (hne : inputs ≠ [])
    (hall : ∀ s ∈ inputs, E.countTokens s < INPUT_TOKEN_LIMIT) :
    get_embeddings E inputs = .ok (inputs.map E.embedOne, 1) := by
  have hbne : inputs.isEmpty = false := by
    cases hb : inputs.isEmpty
    · rfl
    · exact absurd (List.isEmpty_iff.mp hb) hne
  have hall2 : ((inputs.map (fun i => (E.countTokens i, i))).all
      (fun l => l.1 < INPUT_TOKEN_LIMIT)) = true := by
    rw [List.all_eq_true]
    intro p hp
    obtain ⟨s, hs, rfl⟩ := List.mem_map.mp hp
    exact decide_eq_true (hall s hs)
  simp [get_embeddings, hbne, hall2]

/-- C10: a store freshly initialized by load on a not-found location does
not carry the unset (None) vectors sentinel but the zero-length 1-D array,
so the first update of any new items skips the zero-row matrix
initialization branch and the vector append on that array raises a shape
error instead of storing the embedding — regardless of sync mode. -/
theorem C10_fresh_store_append (E : Embedder) (dir : String) (items0 : List Item)
    (sync : Bool) (h1 : items0 ≠ [])
    (h2 : ∀ it ∈ items0, E.countTokens it.content < INPUT_TOKEN_LIMIT)
    (h3 : (E.embedOne ((items0.getD 0 default).content)).length ≠ 0) :
    (initialize_empty_store (storePath dir)).vectors ≠ .unset ∧
    update_store E items0 (initialize_empty_store (storePath dir)) sync =
      .error .valueError := by
  refine ⟨fun hc => Vectors.noConfusion hc, ?_⟩
  obtain ⟨it0, rest, rfl⟩ : ∃ it0 rest, items0 = it0 :: rest := by
    cases items0 with
    | nil => exact absurd rfl h1
    | cons a l => exact ⟨a, l, rfl⟩
  simp only [List.getD_cons_zero] at h3
  have hitems : (initialize_empty_store (storePath dir)).items = [] := rfl
  have hstale : get_stale_or_new_item_idxs (as_store_items (it0 :: rest))
      (initialize_empty_store (storePath dir)) =
        List.range ((as_store_items (it0 :: rest)).length) :=
    get_stale_empty _ _ hitems
  have hlen : (as_store_items (it0 :: rest)).length = rest.length + 1 := by
    simp [as_store_items]
  have hcontent : needs_update_content (it0 :: rest)
      (initialize_empty_store (storePath dir)) =
        (it0 :: rest).map (fun it => it.content) := by
    unfold needs_update_content
    rw [hstale]
    exact (range_map_getD_map (fun it => it.content) (as_store_items (it0 :: rest))
      default).trans (as_store_items_contents (it0 :: rest))
  have hge : get_embeddings E (needs_update_content (it0 :: rest)
      (initialize_empty_store (storePath dir))) =
        .ok (((it0 :: rest).map (fun it => it.content)).map E.embedOne, 1) := by
    rw [hcontent]
    apply get_embeddings_ok
    · simp
    · intro s hs
      obtain ⟨it, hit, rfl⟩ := List.mem_map.mp hs
      exact h2 it hit
  have hb : (get_stale_or_new_item_idxs (as_store_items (it0 :: rest))
      (initialize_empty_store (storePath dir))).isEmpty = false := by
    rw [hstale, hlen, List.range_succ_eq_map]
    rfl
  unfold update_store
  rw [hb]
  simp only [Bool.false_eq_true, if_false]
  unfold update_store_main
  rw [hge]
  simp only [Except.bind]
  have hsync : update_afterSync (as_store_items (it0 :: rest))
      (initialize_empty_store (storePath dir))
      (update_vectors0 (initialize_empty_store (storePath dir))
        (((it0 :: rest).map (fun it => it.content)).map E.embedOne)) sync = .ok [] := by
    cases sync <;> rfl
  rw [hsync]
  simp only [Except.bind]
  rw [hstale, hlen, List.range_succ_eq_map]
  simp [embedLoop, applyEmbedding, idToIdx, npVstack, update_vectors0, h3,
    Except.bind, Except.map, as_store_items, initialize_empty_store]

/-- Witness for C10: one new one-dimensional item against the fresh store
of a not-found load fails with the shape error. -/
theorem C10_fresh_store_append_witness :
    (([iA5] : List Item) ≠ []) ∧
    (∀ it ∈ ([iA5] : List Item), E0.countTokens it.content < INPUT_TOKEN_LIMIT) ∧
    ((E0.embedOne ((([iA5] : List Item).getD 0 default).content)).length ≠ 0) ∧
    ((initialize_empty_store (storePath "w")).vectors ≠ .unset ∧
     update_store E0 [iA5] (initialize_empty_store (storePath "w")) false =
       .error .valueError) :=
  ⟨by decide, by decide, by decide,
   C10_fresh_store_append E0 "w" [iA5] false (by decide) (by decide) (by decide)⟩

/-! Claim C4: the query ranking. -/

/-- The argsort comparison is total. -/
instance argsortRelTotal (l : List Int) : IsTotal Nat (argsortRel l) := by
  constructor
  intro a b
  rcases lt_trichotomy (l.getD a 0) (l.getD b 0) with h | h | h
  · exact Or.inl (Or.inl h)
  · rcases Nat.le_total a b with hab | hab
    · exact Or.inl (Or.inr ⟨h, hab⟩)
    · exact Or.inr (Or.inr ⟨h.symm, hab⟩)
  · exact Or.inr (Or.inl h)

/-- The argsort comparison is transitive. -/
instance argsortRelTrans (l : List Int) : IsTrans Nat (argsortRel l) := by
  constructor
  intro a b c hab hbc
  rcases hab with h1 | h1
  · rcases hbc with h2 | h2
    · exact Or.inl (h1.trans h2)
    · exact Or.inl (by rw [← h2.1]; exact h1)
  · rcases hbc with h2 | h2
    · exact Or.inl (by rw [h1.1]; exact h2)
    · exact Or.inr ⟨h1.1.trans h2.1, Nat.le_trans h1.2 h2.2⟩

/-- When every rank is in bounds, the unfiltered result collection is the
ranked item list. -/
lemma takeItems_ok (sitems : List StoreItem) :
    ∀ idxs : List Nat, (∀ i ∈ idxs, i < sitems.length) →
      takeItems sitems idxs = .ok (idxs.map (fun i => sitems.getD i default)) := by
  intro idxs
  induction idxs with
  | nil => intro _; rfl
  | cons i rest ih =>
      intro hb
      have hi : i < sitems.length := hb i (List.mem_cons_self i rest)
      unfold takeItems
      rw [dif_pos hi, ih (fun j hj => hb j (List.mem_cons_of_mem i hj))]
      simp [Except.map, List.getD_eq_getElem?_getD, List.getElem?_eq_getElem hi]

/-- C4 corrected: for an aligned store with an actual vector matrix and a
prompt whose embedding matches the column count, query with no filter
returns the first count items of a ranking that is a permutation of all
store positions, ordered by strictly descending dot-product similarity
with ties broken by the larger store index first (the reverse of a stable
ascending argsort) — not by the smaller index as the claim states. -/
theorem C4_corrected (E : Embedder) (prompt : String) (count : Nat) (store : Store)
    (d : Nat) (rows : List (List Int))
    (hv : store.vectors = .matrix d rows)
    (hlen : rows.length = store.items.length)
    (hq : (E.embedOne prompt).length = d)
    (htok : E.countTokens prompt < INPUT_TOKEN_LIMIT) :
    ((argsort (npDotRows rows (E.embedOne prompt))).reverse).Perm
      (List.range store.items.length) ∧
    List.Pairwise (fun a b =>
        (npDotRows rows (E.embedOne prompt)).getD b 0 <
          (npDotRows rows (E.embedOne prompt)).getD a 0 ∨
        ((npDotRows rows (E.embedOne prompt)).getD a 0 =
            (npDotRows rows (E.embedOne prompt)).getD b 0 ∧ b < a))
      ((argsort (npDotRows rows (E.embedOne prompt))).reverse) ∧
    query_store E prompt count store none =
      .ok (((argsort (npDotRows rows (E.embedOne prompt))).reverse.take count).map
        (fun i => store.items.getD i default)) := by
  have hslen : (npDotRows rows (E.embedOne prompt)).length = store.items.length := by
    unfold npDotRows
    rw [List.length_map, hlen]
  have hperm : ((argsort (npDotRows rows (E.embedOne prompt))).reverse).Perm
      (List.range store.items.length) := by
    have h : (argsort (npDotRows rows (E.embedOne prompt))).Perm
        (List.range (npDotRows rows (E.embedOne prompt)).length) :=
      List.perm_insertionSort _ _
    exact (List.reverse_perm _).trans (hslen ▸ h)
  refine ⟨hperm, ?_, ?_⟩
  · have hsorted : List.Pairwise (argsortRel (npDotRows rows (E.embedOne prompt)))
        (argsort (npDotRows rows (E.embedOne prompt))) :=
      List.sorted_insertionSort _ _
    have hnd : (argsort (npDotRows rows (E.embedOne prompt))).Nodup :=
      (List.perm_insertionSort _ _).nodup_iff.mpr (List.nodup_range _)
    rw [List.pairwise_reverse]
    refine (hsorted.and hnd).imp ?_
    intro a b hab
    obtain ⟨hrel, hne⟩ := hab
    rcases hrel with h | h
    · exact Or.inl h
    · exact Or.inr ⟨h.1.symm, Nat.lt_of_le_of_ne h.2 hne⟩
  · have hge : get_embeddings E [prompt] = .ok ([E.embedOne prompt], 1) :=
      get_embeddings_ok E [prompt] (by simp)
        (fun s hs => by rw [List.mem_singleton.mp hs]; exact htok)
    unfold query_store
    rw [hv]
    simp only []
    rw [hge]
    simp only [Except.bind, List.getD_cons_zero]
    have hdot : npDotMatVec d rows (E.embedOne prompt) =
        .ok (npDotRows rows (E.embedOne prompt)) := by
      simp [npDotMatVec, hq]
    rw [hdot]
    simp only [Except.bind]
    apply takeItems_ok
    intro i hi
    have hmem : i ∈ (argsort (npDotRows rows (E.embedOne prompt))).reverse :=
      List.mem_of_mem_take hi
    exact List.mem_range.mp (hperm.mem_iff.mp hmem)

/-- Two tied items, the first one at store index 0. -/
def sX : StoreItem := { id := "x", content := "x", meta := none, embedder := "e", content_hash := "h" }

/-- Two tied items, the second one at store index 1. -/
def sY : StoreItem := { id := "y", content := "y", meta := none, embedder := "e", content_hash := "h" }

/-- Third item used by the C4 witness. -/
def sZ : StoreItem := { id := "z", content := "z", meta := none, embedder := "e", content_hash := "h" }

/-- Store whose two items have identical vectors, so both similarity
scores against any query tie. -/
def cxStore : Store := { abs_path := "p", items := [sX, sY], vectors := .matrix 1 [[1], [1]] }

/-- C4 counterexample: both items of cxStore score the same similarity 1
against the embedded prompt, yet the query ranks the item at the larger
store index first, contradicting the claimed stable ordering by smaller
store index. -/
theorem C4_counterexample :
    npDotRows [[1], [1]] (E0.embedOne "p") = [1, 1] ∧
    query_store E0 "p" 2 cxStore none = .ok [sY, sX] ∧
    ([sY, sX] : List StoreItem) ≠ [sX, sY] :=
  ⟨by decide, by decide, by decide⟩

/-- Store matching the spec's ranking example: three items with
similarities 2, 9, 5 against the embedded prompt. -/
def w4Store : Store :=
  { abs_path := "p", items := [sX, sY, sZ], vectors := .matrix 1 [[2], [9], [5]] }

/-- Witness for C4 corrected at the spec's ranking example store. -/
theorem C4_corrected_witness :
    (w4Store.vectors = .matrix 1 [[2], [9], [5]] ∧
     ([[2], [9], [5]] : List (List Int)).length = w4Store.items.length ∧
     (E0.embedOne "p").length = 1 ∧
     E0.countTokens "p" < INPUT_TOKEN_LIMIT) ∧
    (((argsort (npDotRows [[2], [9], [5]] (E0.embedOne "p"))).reverse).Perm
       (List.range w4Store.items.length) ∧
     List.Pairwise (fun a b =>
         (npDotRows [[2], [9], [5]] (E0.embedOne "p")).getD b 0 <
           (npDotRows [[2], [9], [5]] (E0.embedOne "p")).getD a 0 ∨
         ((npDotRows [[2], [9], [5]] (E0.embedOne "p")).getD a 0 =
             (npDotRows [[2], [9], [5]] (E0.embedOne "p")).getD b 0 ∧ b < a))
       ((argsort (npDotRows [[2], [9], [5]] (E0.embedOne "p"))).reverse) ∧
     query_store E0 "p" 2 w4Store none =
       .ok (((argsort (npDotRows [[2], [9], [5]] (E0.embedOne "p"))).reverse.take 2).map
         (fun i => w4Store.items.getD i default))) :=
  ⟨⟨rfl, by decide, by decide, by decide⟩,
   C4_corrected E0 "p" 2 w4Store 1 [[2], [9], [5]] rfl (by decide) (by decide) (by decide)⟩

end LlmStore
